import Mathlib

/-!
Verification of the cf-under-attack control loop (src/cf_under_attack.py).

The decision engine (`main`, after the configuration checks) is a pure
function of the run's observations: the fetched remote mode, the cached
mode, the hysteresis timestamp file, the sampled load, the current time
and the outcome of the remote write.  We embed it shallowly:

* file contents become explicit values (`cacheContent : String`,
  `tsFile : Option Int` — `none` is an absent timestamp file, a present
  file carries its parsed integer, `0` when the content is unparsable,
  matching the `except: activated_at = 0` fallback);
* Python floats become rationals; `round(x, 2)` is modelled as decimal
  rounding half-to-even (`round2`), `int(x)` as truncation toward zero
  (`pyTrunc`);
* the two effectful collaborators are inputs: the remote read is the
  `actualMode` string (`""` encodes a failed `cf_get_mode`, exactly the
  sentinel the Python uses), the remote write outcome is
  `setModeSuccess : Bool`;
* the result records the final persisted state, the list of `cf_set_mode`
  calls issued, the list of `send_alert` invocations (the dispatcher's own
  rate limiting is modelled separately), the exit code, and the computed
  target mode (`none` when the run aborted before computing one).
-/

namespace CfGuard

/-- Python `int(q * k)` for rational `q` and integer `k`: the exact
product truncated toward zero (the denominator of a `Rat` is positive,
so `Int.div`, which truncates toward zero, is exactly Python's `int`). -/
def pyTruncMul (q : ℚ) (k : ℤ) : ℤ := Int.tdiv (q.num * k) (q.den : ℤ)

/-- `round(100 * x)` to the nearest integer, ties to even, as Python's
`round(x, 2)` does on the decimal value; computed on the numerator and
denominator so that it evaluates inside the kernel. -/
def roundHalfEven100 (x : ℚ) : ℤ :=
  let n := 100 * x.num
  let d := (x.den : ℤ)
  let f := Int.fdiv n d
  let r := n - f * d
  if 2 * r < d then f
  else if d < 2 * r then f + 1
  else if f % 2 = 0 then f else f + 1

/-- Python `round(x, 2)`: round to two decimal places, ties to even. -/
def round2 (x : ℚ) : ℚ := Rat.divInt (roundHalfEven100 x) 100

/-- The four `send_alert` call sites of `main`
(lines 290, 294, 322, 325 of the source). -/
inductive AlertKind where
  | manualUnderAttack
  | manualOther
  | entered
  | exited
deriving DecidableEq

/-- Operational configuration of one run
(`LOAD_THRESHOLD`, `LOW_LOAD_MODE`, `COOLDOWN_HOURS`). -/
structure Config where
  loadThreshold : ℚ
  lowLoadMode : String
  cooldownHours : ℚ
deriving DecidableEq

/-- The observations a single invocation of `main` acts on. -/
structure RunInput where
  /-- Result of `cf_get_mode`; `""` means the remote read failed. -/
  actualMode : String
  /-- Content of the cache file (`""` when missing or empty). -/
  cacheContent : String
  /-- Timestamp file: `none` when absent, otherwise its parsed value. -/
  tsFile : Option ℤ
  /-- Raw 5-minute load sample (before rounding). -/
  loadRaw : ℚ
  /-- `int(time.time())` for this run. -/
  now : ℤ
  /-- Whether `cf_set_mode` reports success, if it is called. -/
  setModeSuccess : Bool
deriving DecidableEq

/-- Outcome of a run: final persisted state plus the traces of remote
writes and alert invocations. -/
structure RunResult where
  exitCode : ℕ
  cacheContent : String
  tsFile : Option ℤ
  /-- Values passed to `cf_set_mode`, in order. -/
  remoteWrites : List String
  /-- `send_alert` invocations, in order. -/
  alerts : List AlertKind
  /-- The computed target mode; `none` if the run aborted first. -/
  target : Option String
deriving DecidableEq

/-- `cf_get_mode` (source lines 118-130): the mode string on a 200
response carrying a `value` field, `""` otherwise. -/
def cf_get_mode (code : ℕ) (value : Option String) : String :=
  if code = 200 then value.getD "" else ""

/-- State after the manual-override sync step, plus the alerts it fired. -/
structure SyncState where
  mode : String
  tsFile : Option ℤ
  alerts : List AlertKind
deriving DecidableEq

/-- Manual override detection and cache sync (source lines 284-295).
When the fetched mode differs from the cache, the cache is rewritten to
the fetched mode, the timestamp file is stamped `now` (drift into
`under_attack`) or removed (drift elsewhere), and a manual-change alert
is sent. -/
def driftSync (actualMode cachedMode : String) (ts : Option ℤ) (now : ℤ) :
    SyncState :=
  if actualMode = cachedMode then ⟨cachedMode, ts, []⟩
  else if actualMode = "under_attack" then
    ⟨actualMode, some now, [.manualUnderAttack]⟩
  else ⟨actualMode, none, [.manualOther]⟩

/-- Target-mode computation (source lines 297-313), returning the target
and the timestamp file as left by this step. -/
def computeTarget (cfg : Config) (lastMode : String) (loadNow threshold : ℚ)
    (ts : Option ℤ) (now : ℤ) : String × Option ℤ :=
  if loadNow > threshold then
    ("under_attack", if lastMode ≠ "under_attack" then some now else ts)
  else if lastMode = "under_attack" then
    match ts with
    | some a =>
      if now - a < pyTruncMul cfg.cooldownHours 3600 then
        ("under_attack", some a)
      else (cfg.lowLoadMode, none)
    | none => (cfg.lowLoadMode, none)
  else (cfg.lowLoadMode, ts)

/-- One invocation of the decision engine: source lines 270-330 of
`main`, after the configuration checks.  Mirrors the source order:
fetch check, drift sync, target computation, conditional apply. -/
def run (cfg : Config) (inp : RunInput) : RunResult :=
  let loadNow := round2 inp.loadRaw
  let threshold := round2 cfg.loadThreshold
  if inp.actualMode = "" then
    ⟨2, inp.cacheContent, inp.tsFile, [], [], none⟩
  else
    let s := driftSync inp.actualMode inp.cacheContent inp.tsFile inp.now
    let t := computeTarget cfg s.mode loadNow threshold s.tsFile inp.now
    if t.1 ≠ s.mode then
      if inp.setModeSuccess then
        ⟨0, t.1, t.2, [t.1],
          s.alerts ++ [if t.1 = "under_attack" then .entered else .exited],
          some t.1⟩
      else
        ⟨0, s.mode, t.2, [t.1], s.alerts, some t.1⟩
    else
      ⟨0, s.mode, t.2, [], s.alerts, some t.1⟩

/-- `read_5min_load` (source lines 62-69): the second whitespace field of
the sample, `0` on an unreadable file, a missing field, or an unparsable
field.  The input is `none` for a failed read; a token that does not
parse as a float is an inner `none`. -/
def read_5min_load (sample : Option (List (Option ℚ))) : ℚ :=
  match sample with
  | none => 0
  | some parts =>
    match parts.get? 1 with
    | some (some v) => v
    | _ => 0

/-- `can_alert` (source lines 148-156): with no timestamp-file path
configured, always true; otherwise true when at least
`int(cooldownMin * 60)` seconds have passed since the last alert. -/
def can_alert (tsFileActive : Bool) (lastAlertAt : ℤ) (cooldownMin : ℚ)
    (now : ℤ) : Bool :=
  if ¬tsFileActive then true
  else decide (now - lastAlertAt ≥ pyTruncMul cooldownMin 60)

/-- Outcome of one `send_alert` call. -/
structure AlertOutcome where
  /-- Whether a delivery was attempted (the rate limiter let it through). -/
  attempted : Bool
  /-- Whether the transport actually delivered it. -/
  delivered : Bool
  /-- The persisted last-alert timestamp after the call. -/
  lastAlertAt : ℤ
deriving DecidableEq

/-- `send_alert` (source lines 223-247): with `ALERT_MODE=none` nothing
happens; otherwise a rate-limited delivery attempt, after which
`record_alert_ts` stamps `now` regardless of the transport outcome
(`transportOk`). -/
def send_alert (alertModeNone : Bool) (tsFileActive : Bool)
    (lastAlertAt : ℤ) (cooldownMin : ℚ) (now : ℤ) (transportOk : Bool) :
    AlertOutcome :=
  if alertModeNone then ⟨false, false, lastAlertAt⟩
  else if ¬can_alert tsFileActive lastAlertAt cooldownMin now then
    ⟨false, false, lastAlertAt⟩
  else ⟨true, transportOk, if tsFileActive then now else lastAlertAt⟩

/-! ### Properties of the rounding helpers -/

/-- Rounding to the nearest integer, ties to even, stated with `Int.floor`;
`roundHalfEven100 x` equals `roundSpec (100 * x)`. -/
def roundSpec (y : ℚ) : ℤ :=
  if y - ⌊y⌋ < 1/2 then ⌊y⌋
  else if 1/2 < y - ⌊y⌋ then ⌊y⌋ + 1
  else if ⌊y⌋ % 2 = 0 then ⌊y⌋ else ⌊y⌋ + 1

theorem floor_le_roundSpec (y : ℚ) : ⌊y⌋ ≤ roundSpec y := by
  unfold roundSpec; split_ifs <;> omega

theorem roundSpec_le_floor_add_one (y : ℚ) : roundSpec y ≤ ⌊y⌋ + 1 := by
  unfold roundSpec; split_ifs <;> omega

theorem roundSpec_mono {a b : ℚ} (h : a ≤ b) : roundSpec a ≤ roundSpec b := by
  have hfl : ⌊a⌋ ≤ ⌊b⌋ := Int.floor_le_floor h
  rcases eq_or_lt_of_le hfl with hf | hf
  · unfold roundSpec
    rw [← hf]
    have h2 : a - ⌊a⌋ ≤ b - ⌊a⌋ := by linarith
    split_ifs <;> first | omega | linarith
  · exact le_trans (roundSpec_le_floor_add_one a)
      (le_trans (by omega) (floor_le_roundSpec b))

theorem roundSpec_intCast (k : ℤ) : roundSpec (k : ℚ) = k := by
  unfold roundSpec
  rw [Int.floor_intCast]
  norm_num

theorem roundHalfEven100_eq (x : ℚ) :
    roundHalfEven100 x = roundSpec (100 * x) := by
  have hd : (0:ℤ) < (x.den : ℤ) := by exact_mod_cast x.pos
  have hdQ : (0:ℚ) < ((x.den : ℕ) : ℚ) := by exact_mod_cast x.pos
  have hden0 : ((x.den : ℕ) : ℚ) ≠ 0 := ne_of_gt hdQ
  have hnum : (x.num : ℚ) = x * ((x.den : ℕ) : ℚ) :=
    (div_eq_iff hden0).mp (Rat.num_div_den x)
  have hfd : Int.fdiv (100 * x.num) (x.den : ℤ) = ⌊(100 : ℚ) * x⌋ := by
    rw [Int.fdiv_eq_ediv _ (le_of_lt hd)]
    have hx : (100 : ℚ) * x = ((100 * x.num : ℤ) : ℚ) / ((x.den : ℕ) : ℚ) := by
      push_cast
      rw [eq_div_iff hden0, hnum]
      ring
    rw [hx, Rat.floor_intCast_div_natCast]
  set f := ⌊(100:ℚ) * x⌋ with hfdef
  have hrq : ((100 * x.num : ℚ) - (f : ℚ) * ((x.den : ℕ) : ℚ))
      = ((100:ℚ) * x - (f : ℚ)) * ((x.den : ℕ) : ℚ) := by
    rw [hnum]; ring
  have hlt : (2 * (100 * x.num - f * (x.den : ℤ)) < (x.den : ℤ))
      ↔ ((100:ℚ) * x - (f : ℚ) < 1/2) := by
    rw [← @Int.cast_lt ℚ]
    push_cast
    constructor
    · intro h
      rw [hrq] at h
      nlinarith
    · intro h
      rw [hrq]
      nlinarith
  have hgt : ((x.den : ℤ) < 2 * (100 * x.num - f * (x.den : ℤ)))
      ↔ ((1:ℚ)/2 < (100:ℚ) * x - (f : ℚ)) := by
    rw [← @Int.cast_lt ℚ]
    push_cast
    constructor
    · intro h
      rw [hrq] at h
      nlinarith
    · intro h
      rw [hrq]
      nlinarith
  simp only [roundHalfEven100, roundSpec, hfd, hlt, hgt]

theorem round2_def_div (x : ℚ) :
    round2 x = (roundHalfEven100 x : ℚ) / 100 := by
  rw [round2, Rat.divInt_eq_div]
  norm_num

theorem round2_mono {a b : ℚ} (h : a ≤ b) : round2 a ≤ round2 b := by
  rw [round2_def_div, round2_def_div]
  have h1 : roundHalfEven100 a ≤ roundHalfEven100 b := by
    rw [roundHalfEven100_eq, roundHalfEven100_eq]
    exact roundSpec_mono (by linarith)
  have h2 : (roundHalfEven100 a : ℚ) ≤ (roundHalfEven100 b : ℚ) := by
    exact_mod_cast h1
  linarith

theorem round2_idem (x : ℚ) : round2 (round2 x) = round2 x := by
  have h1 : (100:ℚ) * round2 x = (roundHalfEven100 x : ℚ) := by
    rw [round2_def_div]
    field_simp
  have h2 : roundHalfEven100 (round2 x) = roundHalfEven100 x := by
    rw [roundHalfEven100_eq (round2 x), h1, roundSpec_intCast]
  show Rat.divInt (roundHalfEven100 (round2 x)) 100 = round2 x
  rw [h2, round2]

theorem round2_zero : round2 0 = 0 := by decide

/-! ### Structure of the drift-sync step -/

theorem driftSync_self (m : String) (ts : Option ℤ) (now : ℤ) :
    driftSync m m ts now = ⟨m, ts, []⟩ := by
  simp [driftSync]

theorem driftSync_mode (a c : String) (ts : Option ℤ) (now : ℤ) :
    (driftSync a c ts now).mode = a := by
  unfold driftSync
  split_ifs with h1 h2 <;> simp [h1]

/-- A run is the run from the post-sync state, with the drift alerts
prepended: the manual-override sync happens first and the rest of the
run only sees the synced state. -/
theorem run_decomp (cfg : Config) (inp : RunInput)
    (h0 : inp.actualMode ≠ "") :
    run cfg inp =
      { run cfg { inp with
          cacheContent :=
            (driftSync inp.actualMode inp.cacheContent inp.tsFile inp.now).mode,
          tsFile :=
            (driftSync inp.actualMode inp.cacheContent inp.tsFile inp.now).tsFile }
        with
        alerts :=
          (driftSync inp.actualMode inp.cacheContent inp.tsFile inp.now).alerts ++
          (run cfg { inp with
            cacheContent :=
              (driftSync inp.actualMode inp.cacheContent inp.tsFile inp.now).mode,
            tsFile :=
              (driftSync inp.actualMode inp.cacheContent inp.tsFile
                inp.now).tsFile }).alerts } := by
  rcases hs : driftSync inp.actualMode inp.cacheContent inp.tsFile inp.now
    with ⟨m, ts, al⟩
  have hm : m = inp.actualMode := by
    have h := driftSync_mode inp.actualMode inp.cacheContent inp.tsFile inp.now
    rw [hs] at h
    exact h
  subst hm
  simp only [run, hs, h0, if_neg, driftSync_self]
  split_ifs <;> simp_all

/-- The final timestamp file is whatever the target-computation step
left, whether or not the remote write happened or succeeded. -/
theorem run_tsFile (cfg : Config) (inp : RunInput)
    (h0 : inp.actualMode ≠ "") :
    (run cfg inp).tsFile =
      (computeTarget cfg
        (driftSync inp.actualMode inp.cacheContent inp.tsFile inp.now).mode
        (round2 inp.loadRaw) (round2 cfg.loadThreshold)
        (driftSync inp.actualMode inp.cacheContent inp.tsFile inp.now).tsFile
        inp.now).2 := by
  simp only [run]
  rw [if_neg h0]
  split_ifs <;> rfl

/-! ### Claim theorems -/

/-- C6: if the current remote mode cannot be retrieved at the start of a
run (`cf_get_mode` returned its failure sentinel `""`), the run aborts
with exit status 2 before any threshold evaluation (no target is even
computed), and no persisted state — cache file or timestamp file — is
mutated; moreover `cf_get_mode` yields the sentinel on every non-200
response and on a 200 response with no value. -/
theorem C6_remote_read_failure (cfg : Config) (inp : RunInput)
    (h : inp.actualMode = "") :
    (run cfg inp).exitCode = 2 ∧
    (run cfg inp).cacheContent = inp.cacheContent ∧
    (run cfg inp).tsFile = inp.tsFile ∧
    (run cfg inp).remoteWrites = [] ∧
    (run cfg inp).alerts = [] ∧
    (run cfg inp).target = none ∧
    (∀ code value, code ≠ 200 → cf_get_mode code value = "") ∧
    cf_get_mode 200 none = "" := by
  have hr : run cfg inp = ⟨2, inp.cacheContent, inp.tsFile, [], [], none⟩ := by
    simp [run, h]
  refine ⟨by rw [hr], by rw [hr], by rw [hr], by rw [hr], by rw [hr],
    by rw [hr], ?_, rfl⟩
  intro code value hc
  simp [cf_get_mode, hc]

theorem C6_remote_read_failure_witness :
    (run ⟨7, "medium", 3⟩ ⟨"", "medium", none, 1, 0, true⟩).exitCode = 2 ∧
    (run ⟨7, "medium", 3⟩ ⟨"", "medium", none, 1, 0, true⟩).cacheContent
      = "medium" ∧
    (run ⟨7, "medium", 3⟩ ⟨"", "medium", none, 1, 0, true⟩).tsFile = none ∧
    (run ⟨7, "medium", 3⟩ ⟨"", "medium", none, 1, 0, true⟩).remoteWrites
      = [] ∧
    (run ⟨7, "medium", 3⟩ ⟨"", "medium", none, 1, 0, true⟩).alerts = [] ∧
    (run ⟨7, "medium", 3⟩ ⟨"", "medium", none, 1, 0, true⟩).target = none ∧
    (∀ code value, code ≠ 200 → cf_get_mode code value = "") ∧
    cf_get_mode 200 none = "" :=
  C6_remote_read_failure ⟨7, "medium", 3⟩ ⟨"", "medium", none, 1, 0, true⟩ rfl

/-- C3: when the fetched actual remote mode differs from the cached mode,
the drift-sync step persists the actual mode as the cache, sets the
activation timestamp to `now` exactly when the actual mode is
`under_attack` and clears it otherwise, and fires a manual-change alert
in both directions; the whole run equals the run from the synced state
with that alert prepended, so all of this happens before any threshold
evaluation, regardless of load. -/
theorem C3_drift_detection (cfg : Config) (inp : RunInput)
    (h0 : inp.actualMode ≠ "")
    (hd : inp.actualMode ≠ inp.cacheContent) :
    driftSync inp.actualMode inp.cacheContent inp.tsFile inp.now =
      ⟨inp.actualMode,
        if inp.actualMode = "under_attack" then some inp.now else none,
        [if inp.actualMode = "under_attack" then AlertKind.manualUnderAttack
          else AlertKind.manualOther]⟩ ∧
    (run cfg inp).alerts.head? =
      some (if inp.actualMode = "under_attack" then AlertKind.manualUnderAttack
        else AlertKind.manualOther) ∧
    run cfg inp =
      { run cfg { inp with
          cacheContent := inp.actualMode,
          tsFile := if inp.actualMode = "under_attack" then some inp.now
            else none }
        with alerts :=
          (if inp.actualMode = "under_attack" then AlertKind.manualUnderAttack
            else AlertKind.manualOther) ::
          (run cfg { inp with
            cacheContent := inp.actualMode,
            tsFile := if inp.actualMode = "under_attack" then some inp.now
              else none }).alerts } := by
  have hds : driftSync inp.actualMode inp.cacheContent inp.tsFile inp.now =
      ⟨inp.actualMode,
        if inp.actualMode = "under_attack" then some inp.now else none,
        [if inp.actualMode = "under_attack" then AlertKind.manualUnderAttack
          else AlertKind.manualOther]⟩ := by
    unfold driftSync
    rw [if_neg hd]
    split_ifs with h <;> simp [h]
  have hrd := run_decomp cfg inp h0
  rw [hds] at hrd
  refine ⟨hds, ?_, ?_⟩
  · rw [hrd]
    simp
  · simpa using hrd

theorem C3_drift_detection_witness :
    driftSync "essentially_off" "under_attack" (some 5) 100 =
      ⟨"essentially_off", none, [AlertKind.manualOther]⟩ ∧
    (run ⟨7, "medium", 3⟩
      ⟨"essentially_off", "under_attack", some 5, 1, 100, true⟩).alerts.head?
      = some AlertKind.manualOther ∧
    run ⟨7, "medium", 3⟩
        ⟨"essentially_off", "under_attack", some 5, 1, 100, true⟩ =
      { run ⟨7, "medium", 3⟩
          ⟨"essentially_off", "essentially_off", none, 1, 100, true⟩ with
        alerts := AlertKind.manualOther ::
          (run ⟨7, "medium", 3⟩
            ⟨"essentially_off", "essentially_off", none, 1, 100, true⟩).alerts } :=
  C3_drift_detection ⟨7, "medium", 3⟩
    ⟨"essentially_off", "under_attack", some 5, 1, 100, true⟩
    (by decide) (by decide)

/-- C2: on a run with no manual override where the cached mode is
`under_attack`, the activation timestamp is present and the sampled load
does not exceed the threshold: while `now - activatedAt` is below the
cooldown (`int(COOLDOWN_HOURS * 3600)` seconds) the target stays
`under_attack` with no remote write, no alert and the timestamp intact;
once it reaches the cooldown the target becomes the configured normal
mode and the activation timestamp is cleared. -/
theorem C2_hysteresis (cfg : Config) (inp : RunInput) (a : ℤ)
    (hactual : inp.actualMode = "under_attack")
    (hcache : inp.cacheContent = "under_attack")
    (hts : inp.tsFile = some a)
    (hload : inp.loadRaw ≤ cfg.loadThreshold) :
    (inp.now - a < pyTruncMul cfg.cooldownHours 3600 →
      (run cfg inp).target = some "under_attack" ∧
      (run cfg inp).remoteWrites = [] ∧
      (run cfg inp).alerts = [] ∧
      (run cfg inp).tsFile = some a) ∧
    (pyTruncMul cfg.cooldownHours 3600 ≤ inp.now - a →
      (run cfg inp).target = some cfg.lowLoadMode ∧
      (run cfg inp).tsFile = none) := by
  have hl : ¬ round2 cfg.loadThreshold < round2 inp.loadRaw :=
    not_lt.mpr (round2_mono hload)
  constructor
  · intro hcd
    have hr : run cfg inp =
        ⟨0, "under_attack", some a, [], [], some "under_attack"⟩ := by
      simp [run, hactual, hcache, hts, driftSync_self, computeTarget, hl, hcd]
    rw [hr]
    exact ⟨rfl, rfl, rfl, rfl⟩
  · intro hcd
    have hcd' : ¬ inp.now - a < pyTruncMul cfg.cooldownHours 3600 :=
      not_lt.mpr hcd
    simp only [run, hactual, hcache, hts, driftSync_self, computeTarget, hl,
      hcd', if_false, if_neg]
    split_ifs <;> simp_all

theorem C2_hysteresis_witness :
    ((run ⟨7, "medium", 3⟩
        ⟨"under_attack", "under_attack", some 0, 1, 7200, true⟩).target
      = some "under_attack" ∧
    (run ⟨7, "medium", 3⟩
        ⟨"under_attack", "under_attack", some 0, 1, 7200, true⟩).remoteWrites
      = [] ∧
    (run ⟨7, "medium", 3⟩
        ⟨"under_attack", "under_attack", some 0, 1, 7200, true⟩).alerts
      = [] ∧
    (run ⟨7, "medium", 3⟩
        ⟨"under_attack", "under_attack", some 0, 1, 7200, true⟩).tsFile
      = some 0) ∧
    ((run ⟨7, "medium", 3⟩
        ⟨"under_attack", "under_attack", some 0, 1, 20000, true⟩).target
      = some "medium" ∧
    (run ⟨7, "medium", 3⟩
        ⟨"under_attack", "under_attack", some 0, 1, 20000, true⟩).tsFile
      = none) :=
  ⟨(C2_hysteresis ⟨7, "medium", 3⟩
      ⟨"under_attack", "under_attack", some 0, 1, 7200, true⟩ 0
      rfl rfl rfl (by decide)).1 (by decide),
   (C2_hysteresis ⟨7, "medium", 3⟩
      ⟨"under_attack", "under_attack", some 0, 1, 20000, true⟩ 0
      rfl rfl rfl (by decide)).2 (by decide)⟩

/-- C4 counterexample: with threshold 5.0 and raw sampled load 5.003 the
raw load strictly exceeds the threshold, yet the run's target is the
normal mode, not `under_attack`, and no activation timestamp is stamped —
because the code compares the values rounded to two decimals
(`round(5.003, 2) = 5.0`), refuting the claim as stated over the raw
sampled load. -/
theorem C4_counterexample :
    (⟨5, "medium", 3⟩ : Config).loadThreshold
      < (⟨"medium", "medium", none, mkRat 5003 1000, 1000, true⟩
          : RunInput).loadRaw ∧
    (run ⟨5, "medium", 3⟩
      ⟨"medium", "medium", none, mkRat 5003 1000, 1000, true⟩).target
      = some "medium" ∧
    (run ⟨5, "medium", 3⟩
      ⟨"medium", "medium", none, mkRat 5003 1000, 1000, true⟩).target
      ≠ some "under_attack" ∧
    (run ⟨5, "medium", 3⟩
      ⟨"medium", "medium", none, mkRat 5003 1000, 1000, true⟩).tsFile
      = none := by
  decide

/-- C4 (amended): for every run (with a successful mode fetch) where the
sampled load rounded to two decimals exceeds the threshold rounded to two
decimals, the target mode is `under_attack` unconditionally — overriding
any cooldown decay in progress — and the activation timestamp is stamped
with `now` exactly when the post-sync mode was not already
`under_attack` (otherwise it is left as the sync step left it). -/
theorem C4_monotonic_entry (cfg : Config) (inp : RunInput)
    (h0 : inp.actualMode ≠ "")
    (hload : round2 cfg.loadThreshold < round2 inp.loadRaw) :
    (run cfg inp).target = some "under_attack" ∧
    (run cfg inp).tsFile =
      (if inp.actualMode = "under_attack"
        then (driftSync inp.actualMode inp.cacheContent inp.tsFile
          inp.now).tsFile
        else some inp.now) := by
  rcases hs : driftSync inp.actualMode inp.cacheContent inp.tsFile inp.now
    with ⟨m, ts, al⟩
  have hm : m = inp.actualMode := by
    have h := driftSync_mode inp.actualMode inp.cacheContent inp.tsFile inp.now
    rw [hs] at h
    exact h
  subst hm
  simp only [run, hs, computeTarget, if_pos hload]
  split_ifs <;> simp_all

theorem C4_monotonic_entry_witness :
    (run ⟨7, "medium", 3⟩
      ⟨"medium", "medium", none, mkRat 93 10, 1000, true⟩).target
      = some "under_attack" ∧
    (run ⟨7, "medium", 3⟩
      ⟨"medium", "medium", none, mkRat 93 10, 1000, true⟩).tsFile
      = some 1000 :=
  C4_monotonic_entry ⟨7, "medium", 3⟩
    ⟨"medium", "medium", none, mkRat 93 10, 1000, true⟩
    (by decide) (by decide)

/-- C1 counterexample: a run entering `under_attack` (cached mode
`medium`, load 9.3 over threshold 7) whose remote write fails.  The
target differs from the cached mode, the `cf_set_mode` call was made and
failed (`setModeSuccess = false`), the cache is indeed unchanged, no
alert fires and the exit status is 0 — but the hysteresis timestamp file
WAS written (absent before the run, stamped `now = 1000` after), because
line 302 of the source writes it during target computation, before the
remote call; this refutes the claim that a failed remote write leaves
the timestamp file neither written nor removed. -/
theorem C1_counterexample :
    (⟨"medium", "medium", none, mkRat 93 10, 1000, false⟩
      : RunInput).setModeSuccess = false ∧
    (run ⟨7, "medium", 3⟩
      ⟨"medium", "medium", none, mkRat 93 10, 1000, false⟩).target
      = some "under_attack" ∧
    some "under_attack" ≠ some ((⟨"medium", "medium", none, mkRat 93 10,
      1000, false⟩ : RunInput).cacheContent) ∧
    (run ⟨7, "medium", 3⟩
      ⟨"medium", "medium", none, mkRat 93 10, 1000, false⟩).remoteWrites
      = ["under_attack"] ∧
    (run ⟨7, "medium", 3⟩
      ⟨"medium", "medium", none, mkRat 93 10, 1000, false⟩).exitCode = 0 ∧
    (run ⟨7, "medium", 3⟩
      ⟨"medium", "medium", none, mkRat 93 10, 1000, false⟩).cacheContent
      = "medium" ∧
    (run ⟨7, "medium", 3⟩
      ⟨"medium", "medium", none, mkRat 93 10, 1000, false⟩).alerts = [] ∧
    (⟨"medium", "medium", none, mkRat 93 10, 1000, false⟩
      : RunInput).tsFile = none ∧
    (run ⟨7, "medium", 3⟩
      ⟨"medium", "medium", none, mkRat 93 10, 1000, false⟩).tsFile
      = some 1000 := by
  decide

/-- C1 (amended): if the computed target mode differs from the cached
mode and the remote `setMode` call fails, the run still exits 0, leaves
the cache file untouched and fires no alert — but the hysteresis
timestamp file is NOT left untouched in general: it carries whatever the
target-computation step did to it (stamped `now` on a fresh entry,
removed on cooldown expiry), since those writes happen before the remote
call.  Stated here for runs without a manual override. -/
theorem C1_remote_write_failure (cfg : Config) (inp : RunInput)
    (h0 : inp.actualMode ≠ "")
    (hnd : inp.actualMode = inp.cacheContent)
    (hfail : inp.setModeSuccess = false)
    (hdiff : (run cfg inp).target ≠ some inp.cacheContent) :
    (run cfg inp).exitCode = 0 ∧
    (run cfg inp).cacheContent = inp.cacheContent ∧
    (run cfg inp).alerts = [] ∧
    (run cfg inp).remoteWrites =
      [(computeTarget cfg inp.cacheContent (round2 inp.loadRaw)
        (round2 cfg.loadThreshold) inp.tsFile inp.now).1] ∧
    (run cfg inp).tsFile =
      (computeTarget cfg inp.cacheContent (round2 inp.loadRaw)
        (round2 cfg.loadThreshold) inp.tsFile inp.now).2 := by
  have h0' : inp.cacheContent ≠ "" := by
    rw [← hnd]
    exact h0
  rcases ht : computeTarget cfg inp.cacheContent (round2 inp.loadRaw)
      (round2 cfg.loadThreshold) inp.tsFile inp.now with ⟨tm, ts2⟩
  by_cases htm : tm = inp.cacheContent
  · exfalso
    apply hdiff
    simp [run, hnd, h0', driftSync_self, ht, htm]
  · simp [run, hnd, h0', driftSync_self, ht, htm, hfail]

theorem C1_remote_write_failure_witness :
    (run ⟨7, "medium", 3⟩
      ⟨"medium", "medium", none, mkRat 93 10, 1000, false⟩).exitCode = 0 ∧
    (run ⟨7, "medium", 3⟩
      ⟨"medium", "medium", none, mkRat 93 10, 1000, false⟩).cacheContent
      = "medium" ∧
    (run ⟨7, "medium", 3⟩
      ⟨"medium", "medium", none, mkRat 93 10, 1000, false⟩).alerts = [] ∧
    (run ⟨7, "medium", 3⟩
      ⟨"medium", "medium", none, mkRat 93 10, 1000, false⟩).remoteWrites
      = ["under_attack"] ∧
    (run ⟨7, "medium", 3⟩
      ⟨"medium", "medium", none, mkRat 93 10, 1000, false⟩).tsFile
      = some 1000 :=
  C1_remote_write_failure ⟨7, "medium", 3⟩
    ⟨"medium", "medium", none, mkRat 93 10, 1000, false⟩
    (by decide) rfl rfl (by decide)

/-- C5 counterexample: cached and actual mode `under_attack`, activation
timestamp present (`some 0`), cooldown 3 h elapsed (`now = 20000`), low
load, and a failing remote write.  The run removes the timestamp file
(line 313 of the source) before the `cf_set_mode` call, which fails, so
the cache file still reads `under_attack` at the end of the run yet the
activation timestamp has been cleared — refuting the claim that the
timestamp is never cleared on a run in which the cached mode remains
`under_attack`. -/
theorem C5_counterexample :
    (⟨"under_attack", "under_attack", some 0, 1, 20000, false⟩
      : RunInput).tsFile = some 0 ∧
    (⟨"under_attack", "under_attack", some 0, 1, 20000, false⟩
      : RunInput).setModeSuccess = false ∧
    (run ⟨7, "medium", 3⟩
      ⟨"under_attack", "under_attack", some 0, 1, 20000, false⟩).cacheContent
      = "under_attack" ∧
    (run ⟨7, "medium", 3⟩
      ⟨"under_attack", "under_attack", some 0, 1, 20000, false⟩).remoteWrites
      = ["medium"] ∧
    (run ⟨7, "medium", 3⟩
      ⟨"under_attack", "under_attack", some 0, 1, 20000, false⟩).tsFile
      = none := by
  decide

/-- C5 (amended): for a run with a successful mode fetch and the
activation timestamp present at the start, the final state has the
timestamp cleared exactly when the rounded load does not exceed the
rounded threshold and either a manual override moved the remote mode
away from `under_attack`, or the mode is `under_attack` and the cooldown
has elapsed (measured from the sync-stamped `now` if the override was
into `under_attack`, from the stored timestamp otherwise).  In
particular the clearing does not depend on the remote write succeeding,
so the timestamp can be cleared on a run whose cached mode remains
`under_attack` (cooldown expiry with a failed remote write). -/
theorem C5_activation_timestamp (cfg : Config) (inp : RunInput) (a : ℤ)
    (h0 : inp.actualMode ≠ "")
    (hts : inp.tsFile = some a) :
    (run cfg inp).tsFile = none ↔
      ¬ round2 cfg.loadThreshold < round2 inp.loadRaw ∧
        ((inp.actualMode ≠ inp.cacheContent ∧
            inp.actualMode ≠ "under_attack") ∨
         (inp.actualMode = "under_attack" ∧
          pyTruncMul cfg.cooldownHours 3600 ≤
            inp.now - (if inp.actualMode = inp.cacheContent then a
              else inp.now))) := by
  rw [run_tsFile cfg inp h0]
  by_cases hd : inp.actualMode = inp.cacheContent
  · rw [hd, driftSync_self, hts]
    simp only [hd]
    by_cases hu : inp.cacheContent = "under_attack" <;>
      unfold computeTarget <;>
        split_ifs <;> simp_all <;> split_ifs <;> simp_all
  · by_cases hu : inp.actualMode = "under_attack"
    · have hds : driftSync inp.actualMode inp.cacheContent inp.tsFile inp.now
          = ⟨inp.actualMode, some inp.now, [AlertKind.manualUnderAttack]⟩ := by
        unfold driftSync
        rw [if_neg hd, if_pos hu]
      rw [hds]
      simp only [hd, hu]
      unfold computeTarget
      split_ifs <;> simp_all <;> split_ifs <;> simp_all
    · have hds : driftSync inp.actualMode inp.cacheContent inp.tsFile inp.now
          = ⟨inp.actualMode, none, [AlertKind.manualOther]⟩ := by
        unfold driftSync
        rw [if_neg hd, if_neg hu]
      rw [hds]
      simp only [hd, hu]
      unfold computeTarget
      split_ifs <;> simp_all

theorem C5_activation_timestamp_witness :
    (run ⟨7, "medium", 3⟩
      ⟨"under_attack", "under_attack", some 0, 1, 20000, false⟩).tsFile
      = none :=
  (C5_activation_timestamp ⟨7, "medium", 3⟩
    ⟨"under_attack", "under_attack", some 0, 1, 20000, false⟩ 0
    (by decide) rfl).mpr (by decide)

/-- The run's computed target, for any run that passed the fetch check. -/
theorem run_target (cfg : Config) (inp : RunInput)
    (h0 : inp.actualMode ≠ "") :
    (run cfg inp).target =
      some (computeTarget cfg
        (driftSync inp.actualMode inp.cacheContent inp.tsFile inp.now).mode
        (round2 inp.loadRaw) (round2 cfg.loadThreshold)
        (driftSync inp.actualMode inp.cacheContent inp.tsFile inp.now).tsFile
        inp.now).1 := by
  simp only [run]
  rw [if_neg h0]
  split_ifs <;> rfl

/-- When the target computation leaves the mode unchanged, running it
again on the timestamp state it produced yields the same result. -/
theorem computeTarget_stable (cfg : Config) (lastMode : String)
    (ln thr : ℚ) (ts : Option ℤ) (now : ℤ)
    (h : (computeTarget cfg lastMode ln thr ts now).1 = lastMode) :
    computeTarget cfg lastMode ln thr
      (computeTarget cfg lastMode ln thr ts now).2 now
      = computeTarget cfg lastMode ln thr ts now := by
  by_cases hl : ln > thr
  · have hm : lastMode = "under_attack" := by
      unfold computeTarget at h
      rw [if_pos hl] at h
      exact h.symm
    subst hm
    have he : computeTarget cfg "under_attack" ln thr ts now
        = ("under_attack", ts) := by
      unfold computeTarget
      rw [if_pos hl]
      simp
    rw [he]
    exact he
  · by_cases hm : lastMode = "under_attack"
    · subst hm
      cases ts with
      | none =>
        have he : computeTarget cfg "under_attack" ln thr none now
            = (cfg.lowLoadMode, none) := by
          unfold computeTarget
          rw [if_neg hl]
          simp
        rw [he]
        exact he
      | some a0 =>
        by_cases hcd : now - a0 < pyTruncMul cfg.cooldownHours 3600
        · have he : computeTarget cfg "under_attack" ln thr (some a0) now
              = ("under_attack", some a0) := by
            unfold computeTarget
            rw [if_neg hl]
            simp [hcd]
          rw [he]
          exact he
        · have he : computeTarget cfg "under_attack" ln thr (some a0) now
              = (cfg.lowLoadMode, none) := by
            unfold computeTarget
            rw [if_neg hl]
            simp [hcd]
          have he2 : computeTarget cfg "under_attack" ln thr none now
              = (cfg.lowLoadMode, none) := by
            unfold computeTarget
            rw [if_neg hl]
            simp
          rw [he]
          exact he2
    · have he : computeTarget cfg lastMode ln thr ts now
          = (cfg.lowLoadMode, ts) := by
        unfold computeTarget
        rw [if_neg hl, if_neg hm]
      rw [he]
      exact he

/-- C7: on a run with no manual override whose computed target equals the
cached mode, no remote `setMode` call is made, no alert fires, and the
cache is untouched; running again on the state the first run left (same
`actualMode`, `loadRaw` and `now`) produces the same target and again
issues no remote write and no alert. -/
theorem C7_idempotence (cfg : Config) (inp : RunInput)
    (h0 : inp.actualMode ≠ "")
    (hnd : inp.actualMode = inp.cacheContent)
    (heq : (run cfg inp).target = some inp.cacheContent) :
    (run cfg inp).remoteWrites = [] ∧
    (run cfg inp).alerts = [] ∧
    (run cfg inp).cacheContent = inp.cacheContent ∧
    (run cfg inp).exitCode = 0 ∧
    (run cfg { inp with
      cacheContent := (run cfg inp).cacheContent,
      tsFile := (run cfg inp).tsFile }).target = (run cfg inp).target ∧
    (run cfg { inp with
      cacheContent := (run cfg inp).cacheContent,
      tsFile := (run cfg inp).tsFile }).remoteWrites = [] ∧
    (run cfg { inp with
      cacheContent := (run cfg inp).cacheContent,
      tsFile := (run cfg inp).tsFile }).alerts = [] := by
  have h0' : inp.cacheContent ≠ "" := by
    rw [← hnd]
    exact h0
  rcases ht : computeTarget cfg inp.cacheContent (round2 inp.loadRaw)
      (round2 cfg.loadThreshold) inp.tsFile inp.now with ⟨tm, ts2⟩
  have htarget : (run cfg inp).target = some tm := by
    rw [run_target cfg inp h0, hnd, driftSync_self]
    simp [ht]
  have htm : tm = inp.cacheContent := by
    rw [htarget] at heq
    exact Option.some.inj heq
  subst htm
  have hrun : run cfg inp =
      ⟨0, inp.cacheContent, ts2, [], [], some inp.cacheContent⟩ := by
    simp [run, hnd, h0', driftSync_self, ht]
  have hstable := computeTarget_stable cfg inp.cacheContent
    (round2 inp.loadRaw) (round2 cfg.loadThreshold) inp.tsFile inp.now
    (by rw [ht])
  rw [ht] at hstable
  have hrun2 : run cfg { inp with
      cacheContent := inp.cacheContent, tsFile := ts2 } =
      ⟨0, inp.cacheContent, ts2, [], [], some inp.cacheContent⟩ := by
    simp [run, hnd, h0', driftSync_self, hstable]
  rw [hrun]
  refine ⟨rfl, rfl, rfl, rfl, ?_, ?_, ?_⟩ <;> simp [hrun2]

theorem C7_idempotence_witness :
    (run ⟨7, "medium", 3⟩
      ⟨"medium", "medium", none, 1, 100, true⟩).remoteWrites = [] ∧
    (run ⟨7, "medium", 3⟩
      ⟨"medium", "medium", none, 1, 100, true⟩).alerts = [] ∧
    (run ⟨7, "medium", 3⟩
      ⟨"medium", "medium", none, 1, 100, true⟩).cacheContent = "medium" ∧
    (run ⟨7, "medium", 3⟩
      ⟨"medium", "medium", none, 1, 100, true⟩).exitCode = 0 ∧
    (run ⟨7, "medium", 3⟩
      ⟨"medium", "medium", none, 1, 100, true⟩).target
      = (run ⟨7, "medium", 3⟩
          ⟨"medium", "medium", none, 1, 100, true⟩).target ∧
    (run ⟨7, "medium", 3⟩
      ⟨"medium", "medium", none, 1, 100, true⟩).remoteWrites = [] ∧
    (run ⟨7, "medium", 3⟩
      ⟨"medium", "medium", none, 1, 100, true⟩).alerts = [] :=
  C7_idempotence ⟨7, "medium", 3⟩ ⟨"medium", "medium", none, 1, 100, true⟩
    (by decide) rfl (by decide)

/-- C8: for an alert dispatch with an active (non-`none`) channel and a
configured timestamp file: while `now - lastAlertAt` is below
`int(cooldownMinutes * 60)` the call is a silent no-op leaving
`lastAlertAt` unchanged; otherwise delivery is attempted and
`lastAlertAt := now` is persisted whatever the transport outcome; hence
a second alert-triggering event within the cooldown of a first attempted
one is neither attempted nor delivered. -/
theorem C8_alert_rate_limit (lastAt : ℤ) (cdMin : ℚ) (now now2 : ℤ)
    (tok tok2 : Bool) :
    (now - lastAt < pyTruncMul cdMin 60 →
      send_alert false true lastAt cdMin now tok = ⟨false, false, lastAt⟩) ∧
    (pyTruncMul cdMin 60 ≤ now - lastAt →
      (send_alert false true lastAt cdMin now tok).attempted = true ∧
      (send_alert false true lastAt cdMin now tok).lastAlertAt = now) ∧
    (pyTruncMul cdMin 60 ≤ now - lastAt →
      now2 - now < pyTruncMul cdMin 60 →
      (send_alert false true
        ((send_alert false true lastAt cdMin now tok).lastAlertAt)
        cdMin now2 tok2).attempted = false ∧
      (send_alert false true
        ((send_alert false true lastAt cdMin now tok).lastAlertAt)
        cdMin now2 tok2).delivered = false) := by
  refine ⟨?_, ?_, ?_⟩
  · intro h
    simp [send_alert, can_alert, not_le.mpr h]
  · intro h
    simp [send_alert, can_alert, h]
  · intro h h2
    simp [send_alert, can_alert, h, not_le.mpr h2]

theorem C8_alert_rate_limit_witness :
    send_alert false true 1900 30 2000 false = ⟨false, false, 1900⟩ ∧
    ((send_alert false true 0 30 2000 false).attempted = true ∧
      (send_alert false true 0 30 2000 false).lastAlertAt = 2000) ∧
    ((send_alert false true
        ((send_alert false true 0 30 2000 false).lastAlertAt)
        30 2100 true).attempted = false ∧
      (send_alert false true
        ((send_alert false true 0 30 2000 false).lastAlertAt)
        30 2100 true).delivered = false) :=
  ⟨(C8_alert_rate_limit 1900 30 2000 2100 false true).1 (by decide),
   (C8_alert_rate_limit 0 30 2000 2100 false true).2.1 (by decide),
   (C8_alert_rate_limit 0 30 2000 2100 false true).2.2 (by decide)
     (by decide)⟩

/-- C9: the load-versus-threshold comparison depends only on the two
values rounded to two decimal places — replacing the raw load (or the
raw threshold) by its rounding leaves the whole run unchanged — and with
raw load 7.004 strictly above threshold 7.0 the rounded comparison does
not trigger `under_attack`: the run's target is the normal mode and no
remote write happens. -/
theorem C9_rounded_comparison :
    (∀ (cfg : Config) (inp : RunInput),
      run cfg inp = run cfg { inp with loadRaw := round2 inp.loadRaw }) ∧
    (∀ (cfg : Config) (inp : RunInput),
      run cfg inp =
        run { cfg with loadThreshold := round2 cfg.loadThreshold } inp) ∧
    (7 : ℚ) < mkRat 7004 1000 ∧
    round2 (mkRat 7004 1000) = 7 ∧
    (run ⟨7, "medium", 3⟩
      ⟨"medium", "medium", none, mkRat 7004 1000, 500, true⟩).target
      = some "medium" ∧
    (run ⟨7, "medium", 3⟩
      ⟨"medium", "medium", none, mkRat 7004 1000, 500, true⟩).remoteWrites
      = [] := by
  refine ⟨?_, ?_, by decide, by decide, by decide, by decide⟩
  · intro cfg inp
    simp [run, round2_idem]
  · intro cfg inp
    simp [run, computeTarget, round2_idem]

/-- C10: `read_5min_load` is total and yields 0 whenever the sample is
unreadable, has fewer than two fields, or has an unparsable second
field; consequently, for a nonnegative threshold, a run on a failed load
read never takes the high-load branch — a mode that is not `under_attack`
stays at the normal target — and during an elapsed cooldown it behaves
like low load, allowing the cooldown-driven exit and clearing the
timestamp. -/
theorem C10_load_read_failure (cfg : Config) (inp : RunInput) (a : ℤ) :
    read_5min_load none = 0 ∧
    read_5min_load (some []) = 0 ∧
    (∀ x : Option ℚ, read_5min_load (some [x]) = 0) ∧
    (∀ (x : Option ℚ) (rest : List (Option ℚ)),
      read_5min_load (some (x :: none :: rest)) = 0) ∧
    (0 ≤ cfg.loadThreshold → inp.loadRaw = read_5min_load none →
      inp.actualMode ≠ "" → inp.actualMode ≠ "under_attack" →
      (run cfg inp).target = some cfg.lowLoadMode) ∧
    (0 ≤ cfg.loadThreshold → inp.loadRaw = read_5min_load none →
      inp.actualMode = "under_attack" →
      inp.cacheContent = "under_attack" →
      inp.tsFile = some a →
      pyTruncMul cfg.cooldownHours 3600 ≤ inp.now - a →
      (run cfg inp).target = some cfg.lowLoadMode ∧
      (run cfg inp).tsFile = none) := by
  have hload0 : read_5min_load none = 0 := rfl
  refine ⟨rfl, rfl, fun x => rfl, fun x rest => rfl, ?_, ?_⟩
  · intro hthr hraw h0 hua
    have hle : round2 inp.loadRaw ≤ round2 cfg.loadThreshold := by
      rw [hraw, hload0, round2_zero]
      have h := round2_mono hthr
      rw [round2_zero] at h
      exact h
    have hl : ¬ round2 cfg.loadThreshold < round2 inp.loadRaw :=
      not_lt.mpr hle
    rcases hs : driftSync inp.actualMode inp.cacheContent inp.tsFile inp.now
      with ⟨m, ts, al⟩
    have hm : m = inp.actualMode := by
      have h := driftSync_mode inp.actualMode inp.cacheContent inp.tsFile
        inp.now
      rw [hs] at h
      exact h
    subst hm
    rw [run_target cfg inp h0, hs]
    simp [computeTarget, hl, hua]
  · intro hthr hraw hua hcache hts hcd
    have hle : round2 inp.loadRaw ≤ round2 cfg.loadThreshold := by
      rw [hraw, hload0, round2_zero]
      have h := round2_mono hthr
      rw [round2_zero] at h
      exact h
    have hl : ¬ round2 cfg.loadThreshold < round2 inp.loadRaw :=
      not_lt.mpr hle
    have hcd' : ¬ inp.now - a < pyTruncMul cfg.cooldownHours 3600 :=
      not_lt.mpr hcd
    have h0 : inp.actualMode ≠ "" := by
      rw [hua]
      decide
    constructor
    · rw [run_target cfg inp h0, hua, hcache, hts, driftSync_self]
      simp [computeTarget, hl, hcd']
    · rw [run_tsFile cfg inp h0, hua, hcache, hts, driftSync_self]
      simp [computeTarget, hl, hcd']

theorem C10_load_read_failure_witness :
    (run ⟨7, "medium", 3⟩
      ⟨"essentially_off", "essentially_off", none, 0, 100, true⟩).target
      = some "medium" ∧
    ((run ⟨7, "medium", 3⟩
      ⟨"under_attack", "under_attack", some 0, 0, 20000, true⟩).target
      = some "medium" ∧
    (run ⟨7, "medium", 3⟩
      ⟨"under_attack", "under_attack", some 0, 0, 20000, true⟩).tsFile
      = none) :=
  ⟨(C10_load_read_failure ⟨7, "medium", 3⟩
      ⟨"essentially_off", "essentially_off", none, 0, 100, true⟩ 0).2.2.2.2.1
      (by decide) rfl (by decide) (by decide),
   (C10_load_read_failure ⟨7, "medium", 3⟩
      ⟨"under_attack", "under_attack", some 0, 0, 20000, true⟩ 0).2.2.2.2.2
      (by decide) rfl rfl rfl rfl (by decide)⟩

end CfGuard
